import Mathlib

/-!
Verification of the conditional multi-toolchain build pipeline implemented in
`pywrapper/setup.py` of the range_libc repository: feature-flag resolution
(`check_for_flag`), CUDA toolkit discovery and validation (`find_in_path`,
`locate_cuda`), build-plan assembly (the module-level `compiler_flags` /
`nvcc_flags` / `sources` computation and the `Extension` construction), and
the per-file compiler dispatch (`custom_build_ext._customize_compiler_for_nvcc._compile`).

The script is shallowly embedded: the process environment is a finite
association list, the filesystem is a pair of oracles (`isdir`, `exists`)
plus an `abspath` resolver, `print` output is returned as data, and Python
exceptions (`EnvironmentError`, `KeyError`, compile failures) become `Except`
values.
-/

set_option autoImplicit false

namespace RangeLibcSetup

/-- The process environment `os.environ`: a finite association list from
variable names to values (first binding wins, as `List.lookup` does). -/
def Env : Type := List (String × String)

/-- `os.environ` lookup: `some v` when the variable is set to `v`. -/
def Env.lookup (e : Env) (k : String) : Option String :=
  List.lookup k e

/-- The filesystem as the script observes it: `os.path.isdir`,
`os.path.exists`, and `os.path.abspath` (the last one depends on the process
working directory, so it is part of the ambient state, not a pure string
function). -/
structure FS where
  isdir : String → Bool
  path_exists : String → Bool
  abspath : String → String

/-- ASCII lowercasing of one character, as CPython's `str.lower` acts on the
ASCII values the script compares (all flag values of interest are ASCII). -/
def char_lower (c : Char) : Char :=
  if 'A' ≤ c ∧ c ≤ 'Z' then Char.ofNat (c.toNat + 32) else c

/-- `str.lower()` restricted to ASCII, defined structurally on the character
list so it evaluates inside the kernel. -/
def py_lower (s : String) : String := String.mk (s.toList.map char_lower)

/-- Whether a path string starts with the POSIX separator `/`. -/
def starts_with_sep (s : String) : Bool :=
  match s.toList with
  | c :: _ => c = '/'
  | [] => false

/-- Whether a path string ends with the POSIX separator `/`. -/
def ends_with_sep (s : String) : Bool :=
  match s.toList.getLast? with
  | some c => c = '/'
  | none => false

/-- `path.split(os.pathsep)` body: split a character list on `:`
(CPython's `str.split` with an explicit separator keeps empty pieces). -/
def split_pathsep_aux : List Char → List Char → List String
  | [], acc => [String.mk acc.reverse]
  | c :: rest, acc =>
    if c = ':' then String.mk acc.reverse :: split_pathsep_aux rest []
    else split_pathsep_aux rest (c :: acc)

/-- `path.split(os.pathsep)` on POSIX (`os.pathsep` is `:`). -/
def split_pathsep (s : String) : List String := split_pathsep_aux s.toList []

/-- `os.path.join a b` on POSIX (the only shapes used by the script:
joining plain relative components under a root). -/
def pjoin (a b : String) : String :=
  if starts_with_sep b then b
  else if a = "" ∨ ends_with_sep a then a ++ b
  else a ++ "/" ++ b

/-- `os.path.dirname` on POSIX: everything up to the last `/`, with trailing
slashes stripped unless the result is all slashes. -/
def dirname (p : String) : String :=
  let cs := p.toList
  let head := (cs.reverse.dropWhile (fun c => c ≠ '/')).reverse
  if head.isEmpty then ""
  else if head.all (fun c => c = '/') then String.mk head
  else String.mk ((head.reverse.dropWhile (fun c => c = '/')).reverse)

/-- The extension component of `os.path.splitext p` (`[1]` of the pair) on
POSIX: the suffix from the last `.` of the basename, provided some character
of the basename before that dot is not itself a dot (leading dots do not
start an extension). -/
def splitext_ext (p : String) : String :=
  let base := (p.toList.reverse.takeWhile (fun c => c ≠ '/')).reverse
  let revBase := base.reverse
  let revExt := revBase.takeWhile (fun c => c ≠ '.')
  if revExt.length = revBase.length then ""
  else
    let pre := base.take (base.length - revExt.length - 1)
    if pre.any (fun c => c ≠ '.') then String.mk ('.' :: revExt.reverse)
    else ""

/-- Result of `check_for_flag`: the returned boolean together with the lines
printed to the operator. -/
structure FlagResult where
  enabled : Bool
  output : List String
deriving DecidableEq, Repr

/-- `check_for_flag(flag_str, truemsg, falsemsg)` (setup.py lines 13-24):
enabled iff the environment variable is set and its value, lowercased,
equals `"on"`; prints `truemsg` when enabled, otherwise `falsemsg` plus the
usage hint.  (In the script both messages are non-`False` strings, so the
`not truemsg == False` guards are always true.) -/
def check_for_flag (env : Env) (flag_str truemsg falsemsg : String) : FlagResult :=
  let enabled : Bool :=
    match env.lookup flag_str with
    | some v => py_lower v = "on"
    | none => false
  { enabled := enabled
    output :=
      if enabled then [truemsg]
      else [falsemsg, "   $ sudo " ++ flag_str ++ "=ON python setup.py install"] }

/-- Python exceptions the script can raise while locating the toolkit. -/
inductive PyError where
  | EnvironmentError (msg : String)
  | KeyError (key : String)
deriving DecidableEq, Repr

/-- Equality of `Except` outcomes is decidable when it is for both
components (used to evaluate the embedding at concrete inputs). -/
instance {ε α : Type} [DecidableEq ε] [DecidableEq α] : DecidableEq (Except ε α)
  | .error e, .error f =>
    if h : e = f then .isTrue (by rw [h])
    else .isFalse (fun hc => h (by injection hc))
  | .error _, .ok _ => .isFalse (fun hc => Except.noConfusion hc)
  | .ok _, .error _ => .isFalse (fun hc => Except.noConfusion hc)
  | .ok a, .ok b =>
    if h : a = b then .isTrue (by rw [h])
    else .isFalse (fun hc => h (by injection hc))

/-- `find_in_path(name, path)` over an explicit directory list (the body of
the `for dir in path.split(os.pathsep)` loop, setup.py lines 42-46). -/
def find_in_path_dirs (fs : FS) (name : String) : List String → Option String
  | [] => none
  | dir :: rest =>
    let binpath := pjoin dir name
    if fs.path_exists binpath then some (fs.abspath binpath)
    else find_in_path_dirs fs name rest

/-- `find_in_path(name, path)` (setup.py lines 41-46): first directory of
`path` (split on `os.pathsep`, `:` on POSIX) containing `name`, made
absolute; `None` when no directory contains it. -/
def find_in_path (fs : FS) (name path : String) : Option String :=
  find_in_path_dirs fs name (split_pathsep path)

/-- The `cudaconfig` dictionary (setup.py line 65). -/
structure CudaConfig where
  home : String
  nvcc : String
  include_dir : String
  lib64 : String
deriving DecidableEq, Repr

/-- `cudaconfig` built from a chosen candidate root and compiler path
(setup.py line 65): `include` and `lib64` are fixed sub-paths of the root. -/
def mk_cudaconfig (home nvcc : String) : CudaConfig :=
  { home := home
    nvcc := nvcc
    include_dir := pjoin home "include"
    lib64 := pjoin home "lib64" }

/-- The `cudaconfig` dictionary as the ordered key/value list Python 3.7+
iterates over (insertion order: home, nvcc, include, lib64). -/
def cudaconfig_items (c : CudaConfig) : List (String × String) :=
  [("home", c.home), ("nvcc", c.nvcc), ("include", c.include_dir), ("lib64", c.lib64)]

/-- The `for k, v in cudaconfig.items()` validation loop body (setup.py
lines 66-68): the error message of the first entry whose path does not
exist, `none` when all exist. -/
def cuda_path_check (fs : FS) : List (String × String) → Option String
  | [] => none
  | (k, v) :: rest =>
    if fs.path_exists v then cuda_path_check fs rest
    else some ("The CUDA " ++ k ++ " path could not be located in " ++ v)

/-- The validation half of `locate_cuda` (setup.py lines 65-70): raise
`EnvironmentError` at the first missing path, otherwise return the config. -/
def validate_cudaconfig (fs : FS) (c : CudaConfig) : Except PyError CudaConfig :=
  match cuda_path_check fs (cudaconfig_items c) with
  | some msg => .error (.EnvironmentError msg)
  | none => .ok c

/-- The candidate-selection half of `locate_cuda` (setup.py lines 50-63):
the `if/elif/elif/else` chain yielding the pair `(home, nvcc)`.  Reading
`os.environ["PATH"]` with `PATH` unset raises `KeyError`. -/
def locate_candidate (fs : FS) (env : Env) : Except PyError (String × String) :=
  if fs.isdir "/usr/local/cuda-10.2" then
    .ok ("/usr/local/cuda-10.2", pjoin (pjoin "/usr/local/cuda-10.2" "bin") "nvcc")
  else if fs.isdir "/usr/local/cuda" then
    .ok ("/usr/local/cuda", pjoin (pjoin "/usr/local/cuda" "bin") "nvcc")
  else
    match env.lookup "CUDAHOME" with
    | some home => .ok (home, pjoin (pjoin home "bin") "nvcc")
    | none =>
      match env.lookup "PATH" with
      | none => .error (.KeyError "PATH")
      | some path =>
        match find_in_path fs "nvcc" path with
        | none => .error (.EnvironmentError
            "nvcc binary not found. Set $CUDAHOME or add nvcc to $PATH.")
        | some nvcc => .ok (dirname (dirname nvcc), nvcc)

/-- `locate_cuda()` (setup.py lines 49-70): choose a candidate root, derive
the four paths, validate them, and return the config. -/
def locate_cuda (fs : FS) (env : Env) : Except PyError CudaConfig :=
  match locate_candidate fs env with
  | .error e => .error e
  | .ok (home, nvcc) => validate_cudaconfig fs (mk_cudaconfig home nvcc)

/-! ### Build plan assembly (setup.py lines 27-32, 73-90, 117-154) -/

/-- Messages of the `WITH_CUDA` call to `check_for_flag` (setup.py 27-29). -/
def with_cuda_truemsg : String := "Compiling with CUDA support"

/-- Disable message of the `WITH_CUDA` call (setup.py 27-29). -/
def with_cuda_falsemsg : String :=
  "Compiling without CUDA support. To enable CUDA use:"

/-- Enable message of the `TRACE` call to `check_for_flag` (setup.py 30-32). -/
def trace_truemsg : String := "Compiling with trace enabled for Bresenham's Line"

/-- Disable message of the `TRACE` call (setup.py 30-32). -/
def trace_falsemsg : String := "Compiling without trace enabled for Bresenham's Line"

/-- `use_cuda = check_for_flag("WITH_CUDA", ...)` (setup.py lines 27-29). -/
def use_cuda (env : Env) : Bool :=
  (check_for_flag env "WITH_CUDA" with_cuda_truemsg with_cuda_falsemsg).enabled

/-- `trace = check_for_flag("TRACE", ...)` (setup.py lines 30-32). -/
def trace (env : Env) : Bool :=
  (check_for_flag env "TRACE" trace_truemsg trace_falsemsg).enabled

/-- Base `compiler_flags` (setup.py line 73). -/
def base_compiler_flags : List String := ["-w", "-std=c++11", "-O3"]

/-- Base `nvcc_flags` (setup.py line 74). -/
def base_nvcc_flags : List String :=
  ["-arch=sm_86", "--ptxas-options=-v", "-c", "--compiler-options", "'-fPIC'",
   "-w", "-std=c++11", "-O3"]

/-- Base `sources` (setup.py line 77). -/
def base_sources : List String := ["RangeLibc.pyx", "../vendor/lodepng/lodepng.cpp"]

/-- `CHUNK_SIZE` (setup.py line 79). -/
def CHUNK_SIZE : String := "262144"

/-- `NUM_THREADS` (setup.py line 80). -/
def NUM_THREADS : String := "256"

/-- The three defines appended to both flag lists under `use_cuda`
(setup.py lines 83-84). -/
def cuda_defines : List String :=
  ["-DUSE_CUDA=1", "-DCHUNK_SIZE=" ++ CHUNK_SIZE, "-DNUM_THREADS=" ++ NUM_THREADS]

/-- The define appended to `compiler_flags` under `trace` (setup.py line 90). -/
def trace_define : String := "-D_MAKE_TRACE_MAP=1"

/-- The GPU kernel source appended under `use_cuda` (setup.py line 87). -/
def kernel_source : String := "../includes/kernels.cu"

/-- Everything the `Extension` construction consumes (setup.py lines 73-90
and 117-129 resp. 138-148): flag lists, sources, include dirs, and the
link inputs (empty in the non-CUDA branch, where `Extension` gets none). -/
structure BuildPlan where
  compiler_flags : List String
  nvcc_flags : List String
  sources : List String
  include_dirs : List String
  library_dirs : List String
  libraries : List String
  runtime_library_dirs : List String
deriving DecidableEq, Repr

/-- The plan as assembled from the resolved `trace` flag and the located
toolkit (`some` exactly when `use_cuda` was enabled, since line 85 runs
`locate_cuda` only then).  Mirrors the mutation order of the script: the
`use_cuda` appends (lines 82-87) happen before the `trace` append
(lines 89-90). -/
def build_plan_core (tr : Bool) (cuda : Option CudaConfig) (numpy_include : String) :
    BuildPlan :=
  match cuda with
  | some c =>
      { compiler_flags :=
          (base_compiler_flags ++ cuda_defines) ++ (if tr then [trace_define] else [])
        nvcc_flags := base_nvcc_flags ++ cuda_defines
        sources := base_sources ++ [kernel_source]
        include_dirs := ["../", numpy_include] ++ [c.include_dir]
        library_dirs := [c.lib64, "/usr/lib/x86_64-linux-gnu"]
        libraries := ["cudart"]
        runtime_library_dirs := [c.lib64] }
  | none =>
      { compiler_flags := base_compiler_flags ++ (if tr then [trace_define] else [])
        nvcc_flags := base_nvcc_flags
        sources := base_sources
        include_dirs := ["../", numpy_include]
        library_dirs := []
        libraries := []
        runtime_library_dirs := [] }

/-- The module-level plan computation (setup.py lines 27-32, 73-90,
117-129/138-148): resolve the two flags, locate the toolkit when
`use_cuda`, and assemble the lists; a `locate_cuda` failure propagates. -/
def build_plan (fs : FS) (env : Env) (numpy_include : String) :
    Except PyError BuildPlan :=
  if use_cuda env then
    match locate_cuda fs env with
    | .error e => .error e
    | .ok c => .ok (build_plan_core (trace env) (some c) numpy_include)
  else
    .ok (build_plan_core (trace env) none numpy_include)

/-! ### Compiler dispatch (setup.py lines 93-114)

`_customize_compiler_for_nvcc` captures `default_compiler_so` once and
installs `_compile`, which inspects the source extension, points
`compiler_so` at `CUDA["nvcc"]` for `.cu` files (at the host default
otherwise), invokes the captured `super_compile`, and then assigns the
default back — with no `try/finally`, so the final assignment runs only
when `super_compile` returns normally. -/

/-- The values the installed `_compile` closure captures: the saved default
`compiler_so`, the nvcc path from the located toolkit, and the two
module-level flag lists. -/
structure DispatchCtx where
  default_compiler_so : String
  nvcc : String
  nvcc_flags : List String
  compiler_flags : List String
deriving DecidableEq, Repr

/-- The mutable `self.compiler` state the dispatcher touches: the executable
the next underlying compile invocation will use. -/
structure DispatchState where
  compiler_so : String
deriving DecidableEq, Repr

/-- What one invocation of the underlying `super_compile` observes: the file,
the active `compiler_so` at call time, and the `postargs` passed. -/
structure CompileObs where
  src : String
  compiler_so : String
  postargs : List String
deriving DecidableEq, Repr

/-- A `CompileError` raised by the underlying compile step. -/
structure CompileError where
  src : String
deriving DecidableEq, Repr

/-- The installed `_compile(obj, src, ext, cc_args, extra_postargs, pp_opts)`
(setup.py lines 103-112).  `oracle src = true` means the underlying
`super_compile` returns normally on `src`; `false` means it raises
`CompileError`.  Returns what the underlying invocation observed (the call
is made in both cases), the call's outcome, and the `compiler_so` state
after `_compile` finishes — normally (line 112 restores the default) or by
propagating the error (no `try/finally`, so the state stays as swapped). -/
def dispatch_compile (ctx : DispatchCtx) (oracle : String → Bool) (src : String)
    (_st : DispatchState) : CompileObs × Except CompileError Unit × DispatchState :=
  let ext_type := splitext_ext src
  let swapped : DispatchState × List String :=
    if ext_type = ".cu" then ({ compiler_so := ctx.nvcc }, ctx.nvcc_flags)
    else ({ compiler_so := ctx.default_compiler_so }, ctx.compiler_flags)
  let obs : CompileObs :=
    { src := src, compiler_so := swapped.1.compiler_so, postargs := swapped.2 }
  if oracle src then
    (obs, .ok (), { compiler_so := ctx.default_compiler_so })
  else
    (obs, .error { src := src }, swapped.1)

/-- `build_extensions` driving `_compile` over the source list in order
(distutils compiles sequentially and aborts on the first `CompileError`):
the observations of every underlying compile invocation actually made, the
first error if one was raised, and the final `compiler_so` state. -/
def dispatch_run (ctx : DispatchCtx) (oracle : String → Bool) :
    List String → DispatchState →
    List CompileObs × Option CompileError × DispatchState
  | [], st => ([], none, st)
  | src :: rest, st =>
    match dispatch_compile ctx oracle src st with
    | (obs, .error e, st1) => ([obs], some e, st1)
    | (obs, .ok _, st1) =>
      match dispatch_run ctx oracle rest st1 with
      | (obss, err, st2) => (obs :: obss, err, st2)

/-! ### Concrete fixtures used by witnesses and counterexamples -/

/-- A filesystem with no directories and no files. -/
def empty_fs : FS :=
  { isdir := fun _ => false, path_exists := fun _ => false, abspath := id }

/-- A filesystem where the version-pinned default CUDA directory is present
and every path exists. -/
def full_cuda_fs : FS :=
  { isdir := fun d => d == "/usr/local/cuda-10.2"
    path_exists := fun _ => true
    abspath := id }

/-- An environment enabling CUDA with a mixed-case value. -/
def cuda_on_env : Env := [("WITH_CUDA", "On")]

/-- An environment with only `CUDAHOME` set (to a nonexistent directory on
`empty_fs`). -/
def cudahome_env : Env := [("CUDAHOME", "/opt/cuda")]

/-- An environment with only `PATH` set. -/
def path_env : Env := [("PATH", "/usr/bin:/bin")]

/-- The toolkit configuration `locate_cuda` produces on `full_cuda_fs`. -/
def demo_cfg : CudaConfig :=
  mk_cudaconfig "/usr/local/cuda-10.2" "/usr/local/cuda-10.2/bin/nvcc"

/-- A dispatcher context: host compiler `cc`, nvcc from the default CUDA
location, and the module-level flag lists of a CUDA build. -/
def demo_ctx : DispatchCtx :=
  { default_compiler_so := "cc"
    nvcc := "/usr/local/cuda/bin/nvcc"
    nvcc_flags := base_nvcc_flags ++ cuda_defines
    compiler_flags := base_compiler_flags ++ cuda_defines }

/-- The third observation of the demo sequence: the host file dispatched
right after the successful `.cu` dispatch. -/
def demo_host2_obs : CompileObs :=
  { src := "host2.cpp", compiler_so := "cc",
    postargs := base_compiler_flags ++ cuda_defines }

/-! ## Theorems -/

/-- C2: for every environment state, `check_for_flag` reports the flag
enabled if and only if the named environment variable exists and its value
lowered equals the literal `"on"` (so `"ON"`, `"On"`, `"on"` all enable);
in every other state (variable absent, or any other value) it reports
disabled.  The embedding is a total function, so no environment state makes
it raise. -/
theorem check_for_flag_enabled_iff (env : Env) (flag truemsg falsemsg : String) :
    (check_for_flag env flag truemsg falsemsg).enabled = true ↔
      ∃ v, env.lookup flag = some v ∧ py_lower v = "on" := by
  unfold check_for_flag
  cases h : env.lookup flag <;> simp [h]

/-- Witness for C2 at a concrete environment: `WITH_CUDA=On` resolves to
enabled. -/
theorem check_for_flag_enabled_iff_witness :
    (check_for_flag cuda_on_env "WITH_CUDA" with_cuda_truemsg with_cuda_falsemsg).enabled
      = true :=
  (check_for_flag_enabled_iff cuda_on_env "WITH_CUDA" with_cuda_truemsg
    with_cuda_falsemsg).mpr ⟨"On", rfl, by decide⟩

/-- C4: `locate_cuda`'s candidate selection tries exactly four discovery
strategies in fixed priority order with first-match-wins and no merging:
(1) the version-pinned default directory if it is an existing directory,
(2) the unversioned default directory if it is an existing directory,
(3) the `CUDAHOME` environment variable if set, (4) a scan of every `PATH`
directory for `nvcc`, deriving the root as the parent-of-parent of the
found binary; a later strategy is consulted only when every earlier one
yields no candidate. -/
theorem locate_candidate_discovery_order (fs : FS) (env : Env) :
    (fs.isdir "/usr/local/cuda-10.2" = true →
      locate_candidate fs env =
        .ok ("/usr/local/cuda-10.2", "/usr/local/cuda-10.2/bin/nvcc")) ∧
    (fs.isdir "/usr/local/cuda-10.2" = false → fs.isdir "/usr/local/cuda" = true →
      locate_candidate fs env =
        .ok ("/usr/local/cuda", "/usr/local/cuda/bin/nvcc")) ∧
    (∀ home, fs.isdir "/usr/local/cuda-10.2" = false →
      fs.isdir "/usr/local/cuda" = false →
      env.lookup "CUDAHOME" = some home →
      locate_candidate fs env = .ok (home, pjoin (pjoin home "bin") "nvcc")) ∧
    (∀ path b, fs.isdir "/usr/local/cuda-10.2" = false →
      fs.isdir "/usr/local/cuda" = false →
      env.lookup "CUDAHOME" = none → env.lookup "PATH" = some path →
      find_in_path fs "nvcc" path = some b →
      locate_candidate fs env = .ok (dirname (dirname b), b)) := by
  refine ⟨fun h1 => ?_, fun h1 h2 => ?_, fun home h1 h2 h3 => ?_,
    fun path b h1 h2 h3 h4 h5 => ?_⟩ <;>
    simp [locate_candidate, h1, *] <;> rfl

/-- Witness for C4: on a filesystem where only the version-pinned default
directory exists, the candidate is that directory (strategy 1). -/
theorem locate_candidate_discovery_order_witness :
    locate_candidate full_cuda_fs cuda_on_env =
      .ok ("/usr/local/cuda-10.2", "/usr/local/cuda-10.2/bin/nvcc") :=
  (locate_candidate_discovery_order full_cuda_fs cuda_on_env).1 (by decide)

/-- C5: when both default directories are absent, `CUDAHOME` is unset, and
`nvcc` is absent from every `PATH` directory, `locate_cuda` fails with the
`EnvironmentError` (the spec's `ToolkitNotFound`) whose message names the
`CUDAHOME` variable the operator should set, and never returns a
configuration. -/
theorem locate_cuda_not_found (fs : FS) (env : Env) (path : String)
    (h1 : fs.isdir "/usr/local/cuda-10.2" = false)
    (h2 : fs.isdir "/usr/local/cuda" = false)
    (h3 : env.lookup "CUDAHOME" = none)
    (h4 : env.lookup "PATH" = some path)
    (h5 : find_in_path fs "nvcc" path = none) :
    locate_cuda fs env =
      .error (.EnvironmentError
        "nvcc binary not found. Set $CUDAHOME or add nvcc to $PATH.") ∧
    ∃ pre post,
      "nvcc binary not found. Set $CUDAHOME or add nvcc to $PATH." =
        pre ++ "CUDAHOME" ++ post := by
  refine ⟨?_, "nvcc binary not found. Set $", " or add nvcc to $PATH.", rfl⟩
  simp [locate_cuda, locate_candidate, h1, h2, h3, h4, h5]

/-- Witness for C5: the empty filesystem with `PATH=/usr/bin:/bin`. -/
theorem locate_cuda_not_found_witness :
    locate_cuda empty_fs path_env =
      .error (.EnvironmentError
        "nvcc binary not found. Set $CUDAHOME or add nvcc to $PATH.") ∧
    ∃ pre post,
      "nvcc binary not found. Set $CUDAHOME or add nvcc to $PATH." =
        pre ++ "CUDAHOME" ++ post :=
  locate_cuda_not_found empty_fs path_env "/usr/bin:/bin"
    (by decide) (by decide) (by decide) (by decide) (by decide)

/-- The validation loop reports exactly the first entry (in dictionary
insertion order) whose path does not exist. -/
theorem cuda_path_check_eq_find (fs : FS) (l : List (String × String)) :
    cuda_path_check fs l =
      (l.find? (fun kv => ! fs.path_exists kv.2)).map
        (fun kv => "The CUDA " ++ kv.1 ++ " path could not be located in " ++ kv.2) := by
  induction l with
  | nil => rfl
  | cons kv rest ih =>
    obtain ⟨k, v⟩ := kv
    by_cases h : fs.path_exists v = true
    · simp [cuda_path_check, List.find?, h, ih]
    · simp only [Bool.not_eq_true] at h
      simp [cuda_path_check, List.find?, h]

/-- C6: after a candidate root is chosen, `locate_cuda` checks the four
derived paths (root, compiler binary, include dir, lib dir) for existence:
when all exist validation succeeds, and when some are missing it fails with
an `EnvironmentError` (the spec's `ToolkitInvalid`) naming the first missing
path (in the order home, nvcc, include, lib64) and its role; in particular,
for a root missing exactly its include sub-path the error names `include`.
The last conjunct ties validation back to `locate_cuda`. -/
theorem validate_cudaconfig_names_missing (fs : FS) (c : CudaConfig) (env : Env)
    (home nvcc : String) :
    ((∀ kv ∈ cudaconfig_items c, fs.path_exists kv.2 = true) →
      validate_cudaconfig fs c = .ok c) ∧
    (∀ k v, (cudaconfig_items c).find? (fun kv => ! fs.path_exists kv.2) = some (k, v) →
      fs.path_exists v = false ∧
      validate_cudaconfig fs c =
        .error (.EnvironmentError
          ("The CUDA " ++ k ++ " path could not be located in " ++ v))) ∧
    (fs.path_exists c.home = true → fs.path_exists c.nvcc = true →
      fs.path_exists c.include_dir = false →
      validate_cudaconfig fs c =
        .error (.EnvironmentError
          ("The CUDA include path could not be located in " ++ c.include_dir))) ∧
    (locate_candidate fs env = .ok (home, nvcc) →
      locate_cuda fs env = validate_cudaconfig fs (mk_cudaconfig home nvcc)) := by
  refine ⟨fun hall => ?_, fun k v hfind => ?_, fun hh hn hi => ?_, fun hcand => ?_⟩
  · have hnone : (cudaconfig_items c).find? (fun kv => ! fs.path_exists kv.2) = none := by
      rw [List.find?_eq_none]
      intro kv hkv
      simp [hall kv hkv]
    simp [validate_cudaconfig, cuda_path_check_eq_find, hnone]
  · have hmem := List.find?_some hfind
    simp only [Bool.not_eq_true'] at hmem
    refine ⟨hmem, ?_⟩
    simp [validate_cudaconfig, cuda_path_check_eq_find, hfind]
  · simp [validate_cudaconfig, cuda_path_check, cudaconfig_items, hh, hn, hi]
  · simp [locate_cuda, hcand]

/-- Witness for C6: on a filesystem where exactly the include sub-path of
`/opt/cuda` is missing, validation fails naming `include`. -/
theorem validate_cudaconfig_names_missing_witness :
    validate_cudaconfig
        { isdir := fun _ => false
          path_exists := fun p => p != "/opt/cuda/include"
          abspath := id }
        (mk_cudaconfig "/opt/cuda" "/opt/cuda/bin/nvcc") =
      .error (.EnvironmentError
        ("The CUDA include path could not be located in " ++
          (mk_cudaconfig "/opt/cuda" "/opt/cuda/bin/nvcc").include_dir)) :=
  (validate_cudaconfig_names_missing
      { isdir := fun _ => false
        path_exists := fun p => p != "/opt/cuda/include"
        abspath := id }
      (mk_cudaconfig "/opt/cuda" "/opt/cuda/bin/nvcc") [] "" "").2.2.1
    (by decide) (by decide) (by decide)

/-- C10: when both fixed default installation directories are absent and
`CUDAHOME` is set but names a nonexistent directory, `locate_cuda` accepts
it as the candidate root without an existence check at selection time,
never falls through to the `PATH` search, and fails during validation with
the `EnvironmentError` (the spec's `ToolkitInvalid`) naming the home path —
not with the not-found error. -/
theorem locate_cuda_cudahome_unchecked (fs : FS) (env : Env) (home : String)
    (h1 : fs.isdir "/usr/local/cuda-10.2" = false)
    (h2 : fs.isdir "/usr/local/cuda" = false)
    (h3 : env.lookup "CUDAHOME" = some home)
    (h4 : fs.path_exists home = false) :
    locate_candidate fs env = .ok (home, pjoin (pjoin home "bin") "nvcc") ∧
    locate_cuda fs env =
      .error (.EnvironmentError
        ("The CUDA home path could not be located in " ++ home)) ∧
    locate_cuda fs env ≠
      .error (.EnvironmentError
        "nvcc binary not found. Set $CUDAHOME or add nvcc to $PATH.") := by
  have hcand : locate_candidate fs env = .ok (home, pjoin (pjoin home "bin") "nvcc") := by
    simp [locate_candidate, h1, h2, h3]
  have hloc : locate_cuda fs env =
      .error (.EnvironmentError
        ("The CUDA home path could not be located in " ++ home)) := by
    simp [locate_cuda, hcand, validate_cudaconfig, cuda_path_check, cudaconfig_items,
      mk_cudaconfig, h4]
  refine ⟨hcand, hloc, ?_⟩
  rw [hloc]
  intro hcontra
  have : "The CUDA home path could not be located in " ++ home =
      "nvcc binary not found. Set $CUDAHOME or add nvcc to $PATH." := by
    injection hcontra with h
    injection h
  have hlen := congrArg (fun s => s.toList.take 8) this
  simp at hlen

/-- Witness for C10: the empty filesystem with `CUDAHOME=/opt/cuda`. -/
theorem locate_cuda_cudahome_unchecked_witness :
    locate_candidate empty_fs cudahome_env =
      .ok ("/opt/cuda", pjoin (pjoin "/opt/cuda" "bin") "nvcc") ∧
    locate_cuda empty_fs cudahome_env =
      .error (.EnvironmentError
        ("The CUDA home path could not be located in " ++ "/opt/cuda")) ∧
    locate_cuda empty_fs cudahome_env ≠
      .error (.EnvironmentError
        "nvcc binary not found. Set $CUDAHOME or add nvcc to $PATH.") :=
  locate_cuda_cudahome_unchecked empty_fs cudahome_env "/opt/cuda"
    (by decide) (by decide) (by decide) (by decide)

/-- C1 (counterexample): the claim that `_compile` restores `compiler_so`
to the captured default on every exit path is false — when the underlying
compile of a `.cu` file raises, the restoring assignment (setup.py line 112)
is skipped because there is no `try/finally`, and the active compiler stays
pointed at nvcc while the error propagates. -/
theorem dispatch_compile_cu_error_not_restored :
    (dispatch_compile demo_ctx (fun _ => false) kernel_source
        { compiler_so := "cc" }).2.1 = .error { src := kernel_source } ∧
    ((dispatch_compile demo_ctx (fun _ => false) kernel_source
        { compiler_so := "cc" }).2.2).compiler_so = "/usr/local/cuda/bin/nvcc" ∧
    ((dispatch_compile demo_ctx (fun _ => false) kernel_source
        { compiler_so := "cc" }).2.2).compiler_so ≠ demo_ctx.default_compiler_so := by
  refine ⟨rfl, by decide, by decide⟩

/-- C1 (amended): `_compile` leaves `compiler_so` at the captured default
whenever the underlying compile returns normally, and also — even on a
raised `CompileError` — whenever the source is not a `.cu` file (the host
branch assigns the default before compiling); only a failing `.cu` compile
escapes with the GPU compiler still active. -/
theorem dispatch_compile_restore_amended (ctx : DispatchCtx) (oracle : String → Bool)
    (src : String) (st : DispatchState)
    (h : oracle src = true ∨ splitext_ext src ≠ ".cu") :
    ((dispatch_compile ctx oracle src st).2.2).compiler_so =
      ctx.default_compiler_so := by
  unfold dispatch_compile
  rcases h with h | h
  · simp [h]
  · by_cases ho : oracle src = true <;> simp [ho, h]

/-- Witness for the amended C1: a host-file compile that fails still leaves
the default compiler active. -/
theorem dispatch_compile_restore_amended_witness :
    ((dispatch_compile demo_ctx (fun _ => false) "host.cpp"
        { compiler_so := "cc" }).2.2).compiler_so = demo_ctx.default_compiler_so :=
  dispatch_compile_restore_amended demo_ctx (fun _ => false) "host.cpp"
    { compiler_so := "cc" } (Or.inr (by decide))

/-- Per-call inversion: the observation of one `_compile` invocation records
the source, and a non-`.cu` source is always compiled with the default host
compiler and the host flag list (whether or not the compile succeeds). -/
theorem dispatch_compile_obs_fields (ctx : DispatchCtx) (oracle : String → Bool)
    (src : String) (st st1 : DispatchState) (obs : CompileObs)
    (res : Except CompileError Unit)
    (h : dispatch_compile ctx oracle src st = (obs, res, st1)) :
    obs.src = src ∧
    (splitext_ext src ≠ ".cu" →
      obs.compiler_so = ctx.default_compiler_so ∧
      obs.postargs = ctx.compiler_flags) := by
  by_cases hext : splitext_ext src = ".cu" <;> by_cases ho : oracle src = true <;>
    · simp only [dispatch_compile, hext, ho, if_true, if_false, ite_true, ite_false,
        Bool.false_eq_true, Prod.mk.injEq] at h
      obtain ⟨h1, -, -⟩ := h
      subst h1
      simp [hext]

/-- C3: every host-extension (non-`.cu`) compile invocation made during a
dispatch run — in particular the one dispatched right after a successfully
compiled `.cu` file — is invoked with the captured default host compiler
executable and the host flag list, never the GPU compiler or GPU flags. -/
theorem dispatch_run_host_uses_default (ctx : DispatchCtx) (oracle : String → Bool)
    (srcs : List String) (st : DispatchState) :
    ∀ obs ∈ (dispatch_run ctx oracle srcs st).1,
      splitext_ext obs.src ≠ ".cu" →
      obs.compiler_so = ctx.default_compiler_so ∧
      obs.postargs = ctx.compiler_flags := by
  induction srcs generalizing st with
  | nil =>
    intro obs hobs
    simp [dispatch_run] at hobs
  | cons src rest ih =>
    intro obs hobs hcu
    rcases hc : dispatch_compile ctx oracle src st with ⟨obs0, res, st1⟩
    simp only [dispatch_run, hc] at hobs
    cases res with
    | error e =>
      dsimp only at hobs
      have hobs0 : obs = obs0 := by simpa using hobs
      subst hobs0
      obtain ⟨hsrc, hprops⟩ :=
        dispatch_compile_obs_fields ctx oracle src st st1 obs (.error e) hc
      rw [hsrc] at hcu
      exact hprops hcu
    | ok u =>
      dsimp only at hobs
      rcases List.mem_cons.mp hobs with hhead | htail
      · subst hhead
        obtain ⟨hsrc, hprops⟩ :=
          dispatch_compile_obs_fields ctx oracle src st st1 obs (.ok u) hc
        rw [hsrc] at hcu
        exact hprops hcu
      · exact ih st1 obs htail hcu

/-- Witness for C3: the sequence `[host.cpp, kernel.cu, host2.cpp]` with
every compile succeeding — the third call (right after the successful GPU
dispatch) observes the captured default compiler and the host flags. -/
theorem dispatch_run_host_uses_default_witness :
    demo_host2_obs.compiler_so = demo_ctx.default_compiler_so ∧
    demo_host2_obs.postargs = demo_ctx.compiler_flags :=
  dispatch_run_host_uses_default demo_ctx (fun _ => true)
    ["host.cpp", "kernel.cu", "host2.cpp"] { compiler_so := "cc" }
    demo_host2_obs (by decide) (by decide)

/-- C7: when the GPU-support flag is enabled (and the toolkit is located),
the plan appends the same three preprocessor defines — the feature-enable
define plus the chunk-size and thread-count constants — identically and in
the same order to both the host flag list and the nvcc flag list, appends
the GPU kernel source to the source list, and adds the toolkit's include
directory, lib directory, and the `cudart` runtime library to the plan. -/
theorem build_plan_cuda_appends (fs : FS) (env : Env) (numpy_include : String)
    (c : CudaConfig)
    (hflag : use_cuda env = true)
    (hloc : locate_cuda fs env = .ok c) :
    build_plan fs env numpy_include =
      .ok (build_plan_core (trace env) (some c) numpy_include) ∧
    (build_plan_core (trace env) (some c) numpy_include).compiler_flags =
      base_compiler_flags ++ cuda_defines ++
        (if trace env then [trace_define] else []) ∧
    (build_plan_core (trace env) (some c) numpy_include).nvcc_flags =
      base_nvcc_flags ++ cuda_defines ∧
    (build_plan_core (trace env) (some c) numpy_include).sources =
      base_sources ++ [kernel_source] ∧
    (build_plan_core (trace env) (some c) numpy_include).include_dirs =
      ["../", numpy_include, c.include_dir] ∧
    (build_plan_core (trace env) (some c) numpy_include).library_dirs =
      [c.lib64, "/usr/lib/x86_64-linux-gnu"] ∧
    (build_plan_core (trace env) (some c) numpy_include).libraries = ["cudart"] ∧
    (build_plan_core (trace env) (some c) numpy_include).runtime_library_dirs =
      [c.lib64] := by
  refine ⟨?_, rfl, rfl, rfl, rfl, rfl, rfl, rfl⟩
  simp [build_plan, hflag, hloc]

/-- Witness for C7: `WITH_CUDA=On` on a filesystem where the pinned default
toolkit directory exists. -/
theorem build_plan_cuda_appends_witness :
    build_plan full_cuda_fs cuda_on_env "/numpy" =
      .ok (build_plan_core (trace cuda_on_env) (some demo_cfg) "/numpy") ∧
    (build_plan_core (trace cuda_on_env) (some demo_cfg) "/numpy").compiler_flags =
      base_compiler_flags ++ cuda_defines ++
        (if trace cuda_on_env then [trace_define] else []) ∧
    (build_plan_core (trace cuda_on_env) (some demo_cfg) "/numpy").nvcc_flags =
      base_nvcc_flags ++ cuda_defines ∧
    (build_plan_core (trace cuda_on_env) (some demo_cfg) "/numpy").sources =
      base_sources ++ [kernel_source] ∧
    (build_plan_core (trace cuda_on_env) (some demo_cfg) "/numpy").include_dirs =
      ["../", "/numpy", demo_cfg.include_dir] ∧
    (build_plan_core (trace cuda_on_env) (some demo_cfg) "/numpy").library_dirs =
      [demo_cfg.lib64, "/usr/lib/x86_64-linux-gnu"] ∧
    (build_plan_core (trace cuda_on_env) (some demo_cfg) "/numpy").libraries =
      ["cudart"] ∧
    (build_plan_core (trace cuda_on_env) (some demo_cfg) "/numpy").runtime_library_dirs =
      [demo_cfg.lib64] :=
  build_plan_cuda_appends full_cuda_fs cuda_on_env "/numpy" demo_cfg
    (by decide) (by decide)

/-- C8: enabling the trace flag appends exactly the one diagnostic define to
the host flag list and leaves the nvcc flag list unchanged; with the flag
disabled neither list contains that define (and the nvcc list never does). -/
theorem build_plan_trace_frame (cuda : Option CudaConfig) (numpy_include : String) :
    (build_plan_core true cuda numpy_include).compiler_flags =
      (build_plan_core false cuda numpy_include).compiler_flags ++ [trace_define] ∧
    (build_plan_core true cuda numpy_include).nvcc_flags =
      (build_plan_core false cuda numpy_include).nvcc_flags ∧
    trace_define ∉ (build_plan_core false cuda numpy_include).compiler_flags ∧
    trace_define ∉ (build_plan_core true cuda numpy_include).nvcc_flags ∧
    trace_define ∉ (build_plan_core false cuda numpy_include).nvcc_flags := by
  cases cuda <;>
    refine ⟨by simp [build_plan_core], rfl, ?_, ?_, ?_⟩ <;>
    simp [build_plan_core, base_compiler_flags, base_nvcc_flags, cuda_defines,
      trace_define, CHUNK_SIZE, NUM_THREADS]

/-- Witness for C8 at the non-CUDA plan. -/
theorem build_plan_trace_frame_witness :
    (build_plan_core true none "/numpy").compiler_flags =
      (build_plan_core false none "/numpy").compiler_flags ++ [trace_define] ∧
    (build_plan_core true none "/numpy").nvcc_flags =
      (build_plan_core false none "/numpy").nvcc_flags ∧
    trace_define ∉ (build_plan_core false none "/numpy").compiler_flags ∧
    trace_define ∉ (build_plan_core true none "/numpy").nvcc_flags ∧
    trace_define ∉ (build_plan_core false none "/numpy").nvcc_flags :=
  build_plan_trace_frame none "/numpy"

/-- C9: the plan computation is deterministic — it factors through the two
resolved flag values, the located toolkit, and the numpy include path, so
two runs agreeing on those inputs produce identical plans (in particular
byte-identical host flag, nvcc flag, and source lists, element for element
and in order). -/
theorem build_plan_deterministic (fs1 fs2 : FS) (env1 env2 : Env)
    (ni1 ni2 : String)
    (hcu : use_cuda env1 = use_cuda env2)
    (htr : trace env1 = trace env2)
    (hloc : locate_cuda fs1 env1 = locate_cuda fs2 env2)
    (hni : ni1 = ni2) :
    build_plan fs1 env1 ni1 = build_plan fs2 env2 ni2 := by
  subst hni
  unfold build_plan
  rw [hcu, htr, hloc]

/-- Witness for C9: two different environments and filesystems that resolve
to the same flags and the same (failed) toolkit lookup give equal plans. -/
theorem build_plan_deterministic_witness :
    build_plan empty_fs [("WITH_CUDA", "banana")] "/numpy" =
      build_plan empty_fs [("TRACE", "off")] "/numpy" :=
  build_plan_deterministic empty_fs empty_fs [("WITH_CUDA", "banana")]
    [("TRACE", "off")] "/numpy" "/numpy" (by decide) (by decide) (by decide) rfl

end RangeLibcSetup
